import Mathlib

/-!
Verification development for the OpenAI realtime voice bridge.

The definitions below are a shallow embedding of the program's source:
bytes are `Nat` values below 256, buffers are `List Nat`, base64 strings
are Lean `String`s, and the session manager's mutable state is passed
explicitly.  Each theorem settles one claim about the program.
-/

/-! ## Base64 (Node `Buffer.from(s, 'base64')` / `buf.toString('base64')`) -/

/-- The standard base64 alphabet, index `v` holds the digit for value `v`. -/
def base64Chars : List Char :=
  ['A', 'B', 'C', 'D', 'E', 'F', 'G', 'H', 'I', 'J', 'K', 'L', 'M',
   'N', 'O', 'P', 'Q', 'R', 'S', 'T', 'U', 'V', 'W', 'X', 'Y', 'Z',
   'a', 'b', 'c', 'd', 'e', 'f', 'g', 'h', 'i', 'j', 'k', 'l', 'm',
   'n', 'o', 'p', 'q', 'r', 's', 't', 'u', 'v', 'w', 'x', 'y', 'z',
   '0', '1', '2', '3', '4', '5', '6', '7', '8', '9', '+', '/']

/-- Digit character for a 6-bit value. -/
def base64Char (v : Nat) : Char := base64Chars.getD v '='

/-- Value of a base64 digit; `none` for `'='` and any non-alphabet char
(Node's decoder skips such characters). -/
def charVal (c : Char) : Option Nat := base64Chars.findIdx? (fun d => d == c)

/-- Canonical base64 encoding of a byte list (3 bytes to 4 digits, with
`'='` padding), as produced by `buf.toString('base64')`. -/
def base64EncodeBytes : List Nat → List Char
  | [] => []
  | [a] => [base64Char (a / 4), base64Char (a % 4 * 16), '=', '=']
  | [a, b] => [base64Char (a / 4), base64Char (a % 4 * 16 + b / 16),
               base64Char (b % 16 * 4), '=']
  | a :: b :: c :: rest =>
      base64Char (a / 4) :: base64Char (a % 4 * 16 + b / 16) ::
      base64Char (b % 16 * 4 + c / 64) :: base64Char (c % 64) ::
      base64EncodeBytes rest

/-- Decoding of a list of 6-bit digit values back to bytes (4 digits to
3 bytes; a trailing group of 2 or 3 digits yields 1 or 2 bytes; a lone
trailing digit yields nothing). -/
def base64DecodeVals : List Nat → List Nat
  | w :: x :: y :: z :: rest =>
      (w * 4 + x / 16) :: (x % 16 * 16 + y / 4) :: (y % 4 * 64 + z) ::
      base64DecodeVals rest
  | [w, x] => [w * 4 + x / 16]
  | [w, x, y] => [w * 4 + x / 16, x % 16 * 16 + y / 4]
  | _ => []

/-- `buf.toString('base64')`. -/
def base64Encode (bs : List Nat) : String := String.mk (base64EncodeBytes bs)

/-- `Buffer.from(s, 'base64')`: non-digit characters (including `'='`)
are skipped, the remaining digit values are decoded in groups of four. -/
def base64Decode (s : String) : List Nat :=
  base64DecodeVals (s.data.filterMap charVal)

theorem charVal_base64Char : ∀ v, v < 64 → charVal (base64Char v) = some v := by
  decide

theorem charVal_pad : charVal '=' = none := by decide

theorem base64DecodeVals_encode (bs : List Nat) (h : ∀ b ∈ bs, b < 256) :
    base64DecodeVals ((base64EncodeBytes bs).filterMap charVal) = bs := by
  induction bs using base64EncodeBytes.induct with
  | case1 =>
      simp [base64EncodeBytes, base64DecodeVals]
  | case2 a =>
      have ha : a < 256 := h a (by simp)
      have h1 := charVal_base64Char (a / 4) (by omega)
      have h2 := charVal_base64Char (a % 4 * 16) (by omega)
      simp [base64EncodeBytes, List.filterMap, h1, h2, charVal_pad,
        base64DecodeVals]
      omega
  | case3 a b =>
      have ha : a < 256 := h a (by simp)
      have hb : b < 256 := h b (by simp)
      have h1 := charVal_base64Char (a / 4) (by omega)
      have h2 := charVal_base64Char (a % 4 * 16 + b / 16) (by omega)
      have h3 := charVal_base64Char (b % 16 * 4) (by omega)
      simp [base64EncodeBytes, List.filterMap, h1, h2, h3, charVal_pad,
        base64DecodeVals]
      omega
  | case4 a b c rest ih =>
      have ha : a < 256 := h a (by simp)
      have hb : b < 256 := h b (by simp)
      have hc : c < 256 := h c (by simp)
      have h1 := charVal_base64Char (a / 4) (by omega)
      have h2 := charVal_base64Char (a % 4 * 16 + b / 16) (by omega)
      have h3 := charVal_base64Char (b % 16 * 4 + c / 64) (by omega)
      have h4 := charVal_base64Char (c % 64) (by omega)
      have hrest : ∀ x ∈ rest, x < 256 := fun x hx => h x (by simp [hx])
      simp [base64EncodeBytes, List.filterMap, h1, h2, h3, h4,
        base64DecodeVals, ih hrest]
      omega

theorem base64Decode_base64Encode (bs : List Nat) (h : ∀ b ∈ bs, b < 256) :
    base64Decode (base64Encode bs) = bs :=
  base64DecodeVals_encode bs h

/-! ## WAV container (`addWavHeader`, `pcm16ToWavBase64`, `wavBase64ToPcm16Base64`) -/

/-- Bytes written by `Buffer.writeUInt16LE`. -/
def u16le (v : Nat) : List Nat := [v % 256, v / 256 % 256]

/-- Bytes written by `Buffer.writeUInt32LE`. -/
def u32le (v : Nat) : List Nat :=
  [v % 256, v / 256 % 256, v / 65536 % 256, v / 16777216 % 256]

/-- Bytes written by `Buffer.write` with an ASCII string. -/
def asciiBytes (s : String) : List Nat := s.data.map Char.toNat

/-- The 44-byte header assembled by `addWavHeader` before the PCM data.
`bitsPerSample / 8` is Nat division here; the source divides JS numbers,
which agrees for the byte-aligned sample widths the program uses. -/
def wavHeaderBytes (dataSize sampleRate numChannels bitsPerSample : Nat) : List Nat :=
  let byteRate := sampleRate * numChannels * (bitsPerSample / 8)
  let blockAlign := numChannels * (bitsPerSample / 8)
  asciiBytes "RIFF" ++ u32le (36 + dataSize) ++ asciiBytes "WAVE" ++
  asciiBytes "fmt " ++ u32le 16 ++ u16le 1 ++ u16le numChannels ++
  u32le sampleRate ++ u32le byteRate ++ u16le blockAlign ++
  u16le bitsPerSample ++ asciiBytes "data" ++ u32le dataSize

/-- `addWavHeader(pcmData, sampleRate, numChannels, bitsPerSample)`:
`Buffer.concat([header, pcmData])`. -/
def addWavHeader (pcmData : List Nat) (sampleRate : Nat := 24000)
    (numChannels : Nat := 1) (bitsPerSample : Nat := 16) : List Nat :=
  wavHeaderBytes pcmData.length sampleRate numChannels bitsPerSample ++ pcmData

/-- `pcm16ToWavBase64(pcm16Base64, sampleRate)`. -/
def pcm16ToWavBase64 (pcm16Base64 : String) (sampleRate : Nat := 24000) : String :=
  base64Encode (addWavHeader (base64Decode pcm16Base64) sampleRate)

/-- `wavBase64ToPcm16Base64(wavBase64)`: drops the first 44 bytes. -/
def wavBase64ToPcm16Base64 (wavBase64 : String) : String :=
  base64Encode ((base64Decode wavBase64).drop 44)

theorem asciiBytes_RIFF : asciiBytes "RIFF" = [82, 73, 70, 70] := rfl

theorem asciiBytes_WAVE : asciiBytes "WAVE" = [87, 65, 86, 69] := rfl

theorem asciiBytes_fmt : asciiBytes "fmt " = [102, 109, 116, 32] := rfl

theorem asciiBytes_data : asciiBytes "data" = [100, 97, 116, 97] := rfl

theorem wavHeaderBytes_length (d r c b : Nat) :
    (wavHeaderBytes d r c b).length = 44 := rfl

theorem wavHeaderBytes_lt (d r c b : Nat) :
    ∀ y ∈ wavHeaderBytes d r c b, y < 256 := by
  intro y hy
  simp only [wavHeaderBytes, asciiBytes_RIFF, asciiBytes_WAVE, asciiBytes_fmt,
    asciiBytes_data, u16le, u32le, List.mem_append, List.mem_cons,
    List.not_mem_nil, or_false] at hy
  omega

/-- C1: converting raw PCM (as base64) to the 44-byte WAV container and
back is the identity: `wavBase64ToPcm16Base64 (pcm16ToWavBase64 x) = x`
for `x` the base64 encoding of any byte sequence. -/
theorem wav_pcm_roundtrip (bs : List Nat) (h : ∀ b ∈ bs, b < 256) :
    wavBase64ToPcm16Base64 (pcm16ToWavBase64 (base64Encode bs)) = base64Encode bs := by
  have hall : ∀ y ∈ addWavHeader bs 24000 1 16, y < 256 := by
    intro y hy
    rcases List.mem_append.mp hy with h1 | h2
    · exact wavHeaderBytes_lt _ _ _ _ y h1
    · exact h y h2
  unfold pcm16ToWavBase64 wavBase64ToPcm16Base64
  rw [base64Decode_base64Encode bs h, base64Decode_base64Encode _ hall]
  show base64Encode ((wavHeaderBytes bs.length 24000 1 16 ++ bs).drop 44) = base64Encode bs
  rw [show (44 : Nat) = (wavHeaderBytes bs.length 24000 1 16).length from rfl,
    List.drop_left]

/-- Witness for C1 at the byte sequence `[0, 1, 127, 255]`. -/
theorem wav_pcm_roundtrip_witness :
    (∀ b ∈ [0, 1, 127, 255], b < 256) ∧
      wavBase64ToPcm16Base64 (pcm16ToWavBase64 (base64Encode [0, 1, 127, 255])) =
        base64Encode [0, 1, 127, 255] :=
  ⟨by decide, wav_pcm_roundtrip [0, 1, 127, 255] (by decide)⟩

/-! ## Session manager: data model

`SessionManager` state from `session-manager.js`.  JS `Map`s are modelled
as insertion-ordered association lists (`Map#set` updates in place or
appends, `Map#delete` removes, iteration follows insertion order). -/

/-- `Map#get`. -/
def mapGet {α : Type} (m : List (String × α)) (k : String) : Option α :=
  (m.find? (fun p => p.1 == k)).map Prod.snd

/-- `Map#set`: replaces the value in place when the key is present,
appends otherwise. -/
def mapSet {α : Type} (m : List (String × α)) (k : String) (v : α) :
    List (String × α) :=
  if m.any (fun p => p.1 == k) then
    m.map (fun p => if p.1 == k then (k, v) else p)
  else m ++ [(k, v)]

/-- `Map#delete`. -/
def mapDelete {α : Type} (m : List (String × α)) (k : String) :
    List (String × α) :=
  m.filter (fun p => !(p.1 == k))

/-- `sessionState.status`. -/
inductive Status where
  | connecting
  | connected
  | error
  | closed
deriving DecidableEq

/-- The accumulation buffer of a pending response (`responseBuffer`). -/
structure ResponseBuffer where
  textDelta : String
  audioDelta : List String
  inputTranscript : String
  eventId : Option String
  itemId : Option String
deriving DecidableEq

/-- Which call created a pending entry: `sendText` closes over the user
text for the history append; `sendAudio` uses the input transcript. -/
inductive RequestKind where
  | text (userText : String)
  | audio
deriving DecidableEq

/-- One entry of `session.pendingResponses` (the resolve/reject closures
are modelled by `runResolve` / the dispatch effect, using the data the
closures capture: the request kind, flags and start time). -/
structure PendingEntry where
  kind : RequestKind
  buffer : ResponseBuffer
  returnAudio : Bool
  isAudioInput : Bool
  startTime : Nat
deriving DecidableEq

/-- One entry of `session.conversationHistory`. -/
structure HistoryEntry where
  role : String
  content : String
  timestamp : String
  content_type : Option String := none
  has_audio : Option Bool := none
deriving DecidableEq

/-- `sessionState` as built in `createSession`. -/
structure SessionState where
  id : String
  status : Status
  instructions : String
  voice : String
  model : String
  metadata : List (String × String)
  createdAt : String
  lastActivityAt : Nat
  conversationHistory : List HistoryEntry
  pendingResponses : List (String × PendingEntry)
deriving DecidableEq

/-- `this.sessions`. -/
abbrev Registry := List (String × SessionState)

/-! ## Session manager: configuration and caller operations -/

/-- Configuration fields read through `parseInt(config.x || env || 'default')`;
`none` means the option (and its environment variable) was absent. -/
structure ConfigOptions where
  responseTimeoutMs : Option Nat := none
  sessionMaxIdleMs : Option Nat := none
  maxSessions : Option Nat := none

/-- The resolved `this.config` values the claims depend on. -/
structure Config where
  responseTimeoutMs : Nat
  sessionMaxIdleMs : Nat
  maxSessions : Nat

/-- `this.config` construction in the `SessionManager` constructor. -/
def mkConfig (o : ConfigOptions) : Config where
  responseTimeoutMs := o.responseTimeoutMs.getD 30000
  sessionMaxIdleMs := o.sessionMaxIdleMs.getD 300000
  maxSessions := o.maxSessions.getD 0

/-- Truthiness of `options.returnAudio` (absent and `false` are falsy):
used by `sendText` (`options.returnAudio ? ... : ...`). -/
def jsTruthy (o : Option Bool) : Bool := o.getD false

/-- `options.returnAudio !== false` (absent counts as `true`): used by
`sendAudio`. -/
def jsNotFalse (o : Option Bool) : Bool :=
  match o with
  | some false => false
  | _ => true

/-- Messages sent on the OpenAI WebSocket (`ws.send(JSON.stringify(...))`). -/
inductive OutboundMsg where
  | sessionUpdateInstructions (instructions : String)
  | conversationItemCreate (text : String)
  | responseCreate (modalities : List String)
  | inputAudioBufferClear
  | inputAudioBufferAppend (chunk : List Char)
  | inputAudioBufferCommit
deriving DecidableEq

/-- The object a resolved `sendText` / `sendAudio` promise yields. -/
structure SendResult where
  response_text : String
  input_transcript : Option String
  duration_ms : Nat
  session_id : String
  request_id : String
  audio_base64 : Option String
  audio_format : Option String
  audio_sample_rate : Option Nat
deriving DecidableEq

/-- What `_handleOpenAIEvent` did to the caller's promise. -/
inductive DispatchEffect where
  | noEffect
  | resolved (result : SendResult)
  | rejected (message : String)
deriving DecidableEq

/-- Inbound OpenAI events, by wire `type` (both protocol eras), carrying
the fields the dispatcher reads; `none` models an absent JSON field. -/
inductive OpenAIEvent where
  | sessionCreated
  | sessionUpdated
  | responseTextDelta (delta : Option String)
  | responseOutputTextDelta (delta : Option String)
  | responseAudioDelta (delta : Option String)
  | responseOutputAudioDelta (delta : Option String)
  | responseAudioTranscriptDelta (delta : Option String)
  | responseOutputAudioTranscriptDelta (delta : Option String)
  | inputAudioTranscriptionCompleted (transcript : Option String)
  | responseDone
  | errorEvent (message : Option String)
  | rateLimitsUpdated
  | responseCreated
  | responseOutputItemAdded
  | responseContentPartAdded
  | responseContentPartDone
  | responseOutputItemDone
  | inputAudioBufferCommitted
  | inputAudioBufferCleared
  | conversationItemCreated
  | conversationItemAdded
  | conversationItemDone
  | inputAudioTranscriptionDelta
  | unhandled (eventType : String)
deriving DecidableEq

/-- `_getLatestPending`: the value of the last `pendingResponses` entry. -/
def getLatestPending (s : SessionState) : Option PendingEntry :=
  s.pendingResponses.getLast?.map Prod.snd

/-- `_getLatestPendingId`: the key of the last `pendingResponses` entry. -/
def getLatestPendingId (s : SessionState) : Option String :=
  s.pendingResponses.getLast?.map Prod.fst

/-- In-place mutation of the last entry's value (the source mutates
`pending.buffer` through the reference returned by `_getLatestPending`). -/
def modifyLast (m : List (String × PendingEntry)) (f : PendingEntry → PendingEntry) :
    List (String × PendingEntry) :=
  match m with
  | [] => []
  | [p] => [(p.1, f p.2)]
  | p :: rest => p :: modifyLast rest f

/-- The history appends performed by the `resolve` closure registered in
`sendText` (user turn with the sent text) or `sendAudio` (user turn with
the transcript, `'[audio]'` when it is empty, tagged `content_type:'audio'`). -/
def runResolve (s : SessionState) (p : PendingEntry) (ts : String) : SessionState :=
  match p.kind with
  | .text userText =>
      { s with conversationHistory := s.conversationHistory ++
          [{ role := "user", content := userText, timestamp := ts },
           { role := "assistant", content := p.buffer.textDelta, timestamp := ts,
             has_audio := some (decide (0 < p.buffer.audioDelta.length)) }] }
  | .audio =>
      { s with conversationHistory := s.conversationHistory ++
          [{ role := "user",
             content := if p.buffer.inputTranscript = "" then "[audio]"
                        else p.buffer.inputTranscript,
             content_type := some "audio", timestamp := ts },
           { role := "assistant", content := p.buffer.textDelta, timestamp := ts,
             has_audio := some (decide (0 < p.buffer.audioDelta.length)) }] }

/-- The result object built by the `resolve` closure.  `sendText` includes
audio when `options.returnAudio` is truthy and chunks arrived; `sendAudio`
when `options.returnAudio !== false` and chunks arrived; both tests equal
the entry's stored `returnAudio` flag. -/
def buildResult (p : PendingEntry) (nowMs : Nat) (sessionId requestId : String) :
    SendResult :=
  let withAudio := p.returnAudio && decide (0 < p.buffer.audioDelta.length)
  { response_text := p.buffer.textDelta
    input_transcript := match p.kind with
      | .text _ => none
      | .audio => some p.buffer.inputTranscript
    duration_ms := nowMs - p.startTime
    session_id := sessionId
    request_id := requestId
    audio_base64 := if withAudio then some (String.join p.buffer.audioDelta) else none
    audio_format := if withAudio then some "pcm16" else none
    audio_sample_rate := if withAudio then some 24000 else none }

/-- Mutation of the latest pending entry's buffer through the reference
returned by `_getLatestPending`. -/
def updateLatestBuffer (s : SessionState) (f : ResponseBuffer → ResponseBuffer) :
    SessionState :=
  { s with pendingResponses :=
      modifyLast s.pendingResponses (fun p => { p with buffer := f p.buffer }) }

/-- `_handleOpenAIEvent(session, event)`, processed at wall-clock `nowMs`
(for `Date.now()` in the resolve closure) and timestamp string `ts`
(for `new Date().toISOString()`). -/
def handleOpenAIEvent (s : SessionState) (e : OpenAIEvent) (nowMs : Nat)
    (ts : String) : SessionState × DispatchEffect :=
  match e with
  | .responseTextDelta d | .responseOutputTextDelta d =>
      match getLatestPending s with
      | none => (s, .noEffect)
      | some _ =>
          (updateLatestBuffer s
            (fun b => { b with textDelta := b.textDelta ++ d.getD "" }), .noEffect)
  | .responseAudioDelta d | .responseOutputAudioDelta d =>
      match getLatestPending s with
      | none => (s, .noEffect)
      | some p =>
          if p.returnAudio then
            (updateLatestBuffer s
              (fun b => { b with audioDelta := b.audioDelta ++ [d.getD ""] }), .noEffect)
          else (s, .noEffect)
  | .responseAudioTranscriptDelta d | .responseOutputAudioTranscriptDelta d =>
      match getLatestPending s with
      | none => (s, .noEffect)
      | some p =>
          if p.buffer.textDelta = "" then
            (updateLatestBuffer s
              (fun b => { b with textDelta := b.textDelta ++ d.getD "" }), .noEffect)
          else (s, .noEffect)
  | .inputAudioTranscriptionCompleted t =>
      match getLatestPending s with
      | none => (s, .noEffect)
      | some p =>
          if p.isAudioInput then
            (updateLatestBuffer s
              (fun b => { b with inputTranscript := t.getD "" }), .noEffect)
          else (s, .noEffect)
  | .responseDone =>
      match s.pendingResponses.getLast? with
      | none => (s, .noEffect)
      | some (requestId, p) =>
          let s1 := runResolve s p ts
          let s2 := { s1 with pendingResponses := mapDelete s1.pendingResponses requestId }
          (s2, .resolved (buildResult p nowMs s.id requestId))
  | .errorEvent msg =>
      match s.pendingResponses.getLast? with
      | none => (s, .noEffect)
      | some (requestId, _) =>
          ({ s with pendingResponses := mapDelete s.pendingResponses requestId },
           .rejected (match msg with
             | some m => m
             | none => "Error desconocido de OpenAI"))
  | _ => (s, .noEffect)

/-! ## Session manager: caller-facing operations -/

/-- The synchronous registry effect of `createSession`: capacity check,
id selection (`options.sessionId || uuidv4()`), construction of the
initial `sessionState`, and `this.sessions.set(sessionId, sessionState)`.
`generatedId` stands for the fresh `uuidv4()` value. -/
def createSessionStart (cfg : Config) (reg : Registry) (sessionId? : Option String)
    (generatedId : String) (instructions voice model : String)
    (metadata : List (String × String)) (createdAt : String) (now : Nat) :
    Except String (Registry × SessionState) :=
  if cfg.maxSessions > 0 && decide (cfg.maxSessions ≤ reg.length) then
    .error "Límite de sesiones alcanzado"
  else
    let sessionId := sessionId?.getD generatedId
    let st : SessionState :=
      { id := sessionId
        status := .connecting
        instructions := instructions
        voice := voice
        model := model
        metadata := metadata
        createdAt := createdAt
        lastActivityAt := now
        conversationHistory := []
        pendingResponses := [] }
    .ok (mapSet reg sessionId st, st)

/-- Outcome record of the `ws.on('error')` handler in `createSession`. -/
structure WsErrorOutcome where
  registry : Registry
  rejectedPending : List (String × PendingEntry)
  createPromiseRejected : Bool
  connectTimeoutCleared : Bool
deriving DecidableEq

/-- The `ws.on('error')` handler: clears the connect timeout, sets
`status = 'error'`, rejects every pending request with the transport
error, then tests `sessionState.status === 'connecting'` to decide
whether to delete the session and reject the `createSession` promise. -/
def onWsError (reg : Registry) (s : SessionState) : WsErrorOutcome :=
  let s1 : SessionState := { s with status := .error }
  let rejected := s1.pendingResponses
  let s2 : SessionState := { s1 with pendingResponses := [] }
  let reg1 := mapSet reg s2.id s2
  if s2.status = Status.connecting then
    { registry := mapDelete reg1 s2.id
      rejectedPending := rejected
      createPromiseRejected := true
      connectTimeoutCleared := true }
  else
    { registry := reg1
      rejectedPending := rejected
      createPromiseRejected := false
      connectTimeoutCleared := true }

/-- The `responseBuffer` initialised by `sendText`. -/
def initialTextBuffer (text : String) : ResponseBuffer :=
  { textDelta := "", audioDelta := [], inputTranscript := text,
    eventId := none, itemId := none }

/-- The `responseBuffer` initialised by `sendAudio`. -/
def initialAudioBuffer : ResponseBuffer :=
  { textDelta := "", audioDelta := [], inputTranscript := "",
    eventId := none, itemId := none }

/-- The synchronous part of `sendText(sessionId, text, options)` on a
live session: bumps `lastActivityAt`, registers the pending entry under
the fresh `requestId`, and sends the item-create and response-create
messages (modalities depend on the truthiness of `options.returnAudio`). -/
def sendTextRegister (s : SessionState) (text : String) (returnAudio : Option Bool)
    (requestId : String) (now : Nat) : SessionState × List OutboundMsg :=
  let s1 := { s with lastActivityAt := now }
  let entry : PendingEntry :=
    { kind := .text text
      buffer := initialTextBuffer text
      returnAudio := jsTruthy returnAudio
      isAudioInput := false
      startTime := now }
  let s2 := { s1 with pendingResponses := mapSet s1.pendingResponses requestId entry }
  (s2, [OutboundMsg.conversationItemCreate text,
        OutboundMsg.responseCreate
          (if jsTruthy returnAudio then ["text", "audio"] else ["text"])])

/-- `audioBase64.slice(i, i + 15000)` chunking loop of `sendAudio`. -/
def chunkChars (l : List Char) : List (List Char) :=
  if l = [] then [] else l.take 15000 :: chunkChars (l.drop 15000)
termination_by l.length
decreasing_by
  simp only [List.length_drop]
  have hl : l.length ≠ 0 := by
    simpa [List.length_eq_zero] using ‹¬ l = []›
  omega

/-- The synchronous part of `sendAudio(sessionId, audioBase64, options)`
on a live session: bumps `lastActivityAt`, registers the pending entry,
clears the input buffer, appends the audio in chunks of at most 15000
base64 characters, commits, and requests a response (modalities depend
on `options.returnAudio !== false`). -/
def sendAudioRegister (s : SessionState) (audioBase64 : String)
    (returnAudio : Option Bool) (requestId : String) (now : Nat) :
    SessionState × List OutboundMsg :=
  let s1 := { s with lastActivityAt := now }
  let entry : PendingEntry :=
    { kind := .audio
      buffer := initialAudioBuffer
      returnAudio := jsNotFalse returnAudio
      isAudioInput := true
      startTime := now }
  let s2 := { s1 with pendingResponses := mapSet s1.pendingResponses requestId entry }
  (s2, [OutboundMsg.inputAudioBufferClear] ++
       (chunkChars audioBase64.data).map OutboundMsg.inputAudioBufferAppend ++
       [OutboundMsg.inputAudioBufferCommit,
        OutboundMsg.responseCreate
          (if jsNotFalse returnAudio then ["text", "audio"] else ["text"])])

/-- Outcome of a fired response timeout. -/
inductive TimeoutOutcome where
  | rejectedWith (message : String)
deriving DecidableEq

/-- The `setTimeout` callback registered by `sendText` / `sendAudio`:
deletes the request's pending entry and rejects the caller with the
timeout error naming the configured deadline. -/
def fireResponseTimeout (s : SessionState) (requestId : String) (cfg : Config) :
    SessionState × TimeoutOutcome :=
  ({ s with pendingResponses := mapDelete s.pendingResponses requestId },
   .rejectedWith ("Timeout esperando respuesta de OpenAI (" ++
     toString cfg.responseTimeoutMs ++ "ms)"))

/-- `updateInstructions(sessionId, instructions)` on a live session:
overwrites the instructions field, bumps `lastActivityAt`, and emits the
`session.update` configuration intent. -/
def updateInstructionsOp (s : SessionState) (instructions : String) (now : Nat) :
    SessionState × List OutboundMsg :=
  ({ s with instructions := instructions, lastActivityAt := now },
   [OutboundMsg.sessionUpdateInstructions instructions])

/-- The object returned by `getHistory`. -/
structure HistoryResult where
  session_id : String
  messages : List HistoryEntry
  total : Nat
deriving DecidableEq

/-- `getHistory(sessionId)` on a live session: a pure read, returned
together with the (unchanged) session state. -/
def getHistory (s : SessionState) : SessionState × HistoryResult :=
  (s, { session_id := s.id, messages := s.conversationHistory,
        total := s.conversationHistory.length })

/-- The value `closeSession` returns, plus the rejections and the
transport release it performs. -/
structure CloseOutcome where
  success : Bool
  errorMessage : Option String
  rejectedPending : List (String × String)
  wsTerminated : Bool
deriving DecidableEq

/-- `closeSession(sessionId)`: structured not-found result for an unknown
id; otherwise rejects all pending requests with the manual-close error,
terminates the WebSocket and deletes the session. -/
def closeSession (reg : Registry) (sessionId : String) : Registry × CloseOutcome :=
  match mapGet reg sessionId with
  | none =>
      (reg, { success := false
              errorMessage := some "Sesión no encontrada"
              rejectedPending := []
              wsTerminated := false })
  | some s =>
      (mapDelete reg sessionId,
       { success := true
         errorMessage := none
         rejectedPending := s.pendingResponses.map
           (fun p => (p.1, "Sesión cerrada manualmente"))
         wsTerminated := true })

/-! ## Map lemmas and shared sample data -/

theorem mapGet_mapDelete_self {α : Type} (m : List (String × α)) (k : String) :
    mapGet (mapDelete m k) k = none := by
  induction m with
  | nil => rfl
  | cons p rest ih =>
      by_cases h : p.1 == k
      · simp only [mapDelete, List.filter_cons, h, Bool.not_true]
        exact ih
      · simp only [mapDelete, mapGet, List.filter_cons, List.find?, h,
          Bool.not_false, if_true]
        exact ih

theorem find_map_set {α : Type} (m : List (String × α)) (k : String) (v : α)
    (hA : m.any (fun p => p.1 == k) = true) :
    (m.map (fun p => if p.1 == k then (k, v) else p)).find? (fun p => p.1 == k) =
      some (k, v) := by
  induction m with
  | nil => simp at hA
  | cons p rest ih =>
      by_cases h : p.1 == k
      · simp [h, List.find?]
      · have hrest : rest.any (fun p => p.1 == k) = true := by
          simpa [List.any_cons, h] using hA
        simpa [h, List.find?] using ih hrest

theorem find_append_kv {α : Type} (m : List (String × α)) (k : String) (v : α)
    (hA : m.any (fun p => p.1 == k) = false) :
    (m ++ [(k, v)]).find? (fun p => p.1 == k) = some (k, v) := by
  induction m with
  | nil => simp [List.find?]
  | cons p rest ih =>
      have h : (p.1 == k) = false := by
        rcases Bool.eq_false_or_eq_true (p.1 == k) with h3 | h3
        · simp [List.any_cons, h3] at hA
        · exact h3
      have hrest : rest.any (fun p => p.1 == k) = false := by
        rcases Bool.eq_false_or_eq_true (rest.any (fun p => p.1 == k)) with h3 | h3
        · simp [List.any_cons, h3] at hA
        · exact h3
      simpa [h, List.find?] using ih hrest

theorem mapGet_mapSet_self {α : Type} (m : List (String × α)) (k : String) (v : α) :
    mapGet (mapSet m k v) k = some v := by
  unfold mapSet
  split
  · next hA =>
      unfold mapGet
      rw [find_map_set m k v hA]
      rfl
  · next hA =>
      have hA2 : m.any (fun p => p.1 == k) = false := by
        rcases Bool.eq_false_or_eq_true (m.any (fun p => p.1 == k)) with h3 | h3
        · exact absurd h3 hA
        · exact h3
      unfold mapGet
      rw [find_append_kv m k v hA2]
      rfl

theorem string_empty_append (s : String) : "" ++ s = s := by
  apply String.ext
  simp [String.data_append]

/-- A connected session with no history and no pending requests, used as
a concrete evaluation point. -/
def baseSession : SessionState :=
  { id := "s1"
    status := .connected
    instructions := "Eres un asistente útil."
    voice := "alloy"
    model := "gpt-4o-mini-realtime-preview"
    metadata := []
    createdAt := "2026-01-01T00:00:00.000Z"
    lastActivityAt := 0
    conversationHistory := []
    pendingResponses := [] }

/-- A freshly registered `sendText` pending entry (empty buffers). -/
def samplePending : PendingEntry :=
  { kind := .text "hola"
    buffer := initialTextBuffer "hola"
    returnAudio := false
    isAudioInput := false
    startTime := 0 }

/-! ## Claim theorems -/

/-- C2 (code bug): the `ws.on('error')` handler sets the status to
`error` before testing `status === 'connecting'`, so the test is false
for every session — even for a transport error that arrives while the
session is still connecting, the session is not removed from the
registry and the `createSession` promise is never rejected (only the
pending requests are rejected, and the connect timeout has been
cleared, so the promise hangs). -/
theorem transport_error_never_discards_session :
    ∀ (reg : Registry) (s : SessionState),
      (onWsError reg s).createPromiseRejected = false ∧
      (onWsError reg s).registry =
        mapSet reg s.id { s with status := .error, pendingResponses := [] } ∧
      (onWsError reg s).rejectedPending = s.pendingResponses ∧
      (onWsError reg s).connectTimeoutCleared = true := by
  intro reg s
  simp [onWsError]

/-- C5: after `sendText` registers a request and its response timeout
fires, the pending table no longer contains the request id and the
caller is rejected with the timeout error; the default configured
timeout is 30000 ms. -/
theorem sendText_timeout_rejects_and_clears :
    (mkConfig {}).responseTimeoutMs = 30000 ∧
    ∀ (s : SessionState) (text : String) (ra : Option Bool) (requestId : String)
      (now : Nat) (cfg : Config),
      mapGet (fireResponseTimeout (sendTextRegister s text ra requestId now).1
          requestId cfg).1.pendingResponses requestId = none ∧
      (fireResponseTimeout (sendTextRegister s text ra requestId now).1
          requestId cfg).2 =
        .rejectedWith ("Timeout esperando respuesta de OpenAI (" ++
          toString cfg.responseTimeoutMs ++ "ms)") := by
  refine ⟨rfl, ?_⟩
  intro s text ra requestId now cfg
  exact ⟨mapGet_mapDelete_self _ _, rfl⟩

/-- C6: `closeSession` is idempotent for the caller: an unknown id gets
the structured not-found result with the registry unchanged (never a
throw — the operation is a total function); a live id has all its
pending requests rejected with the manual-close error, its transport
terminated and its entry removed, and a second close returns the
not-found result. -/
theorem closeSession_idempotent (reg : Registry) (sessionId : String) :
    (mapGet reg sessionId = none →
      closeSession reg sessionId =
        (reg, { success := false, errorMessage := some "Sesión no encontrada",
                rejectedPending := [], wsTerminated := false })) ∧
    (∀ s, mapGet reg sessionId = some s →
      (closeSession reg sessionId).2.success = true ∧
      (closeSession reg sessionId).2.rejectedPending =
        s.pendingResponses.map (fun p => (p.1, "Sesión cerrada manualmente")) ∧
      (closeSession reg sessionId).2.wsTerminated = true ∧
      mapGet (closeSession reg sessionId).1 sessionId = none ∧
      (closeSession (closeSession reg sessionId).1 sessionId).2 =
        { success := false, errorMessage := some "Sesión no encontrada",
          rejectedPending := [], wsTerminated := false }) := by
  constructor
  · intro h
    simp [closeSession, h]
  · intro s h
    have hdel : mapGet (mapDelete reg sessionId) sessionId = none :=
      mapGet_mapDelete_self reg sessionId
    refine ⟨?_, ?_, ?_, ?_, ?_⟩ <;> simp [closeSession, h, hdel]

/-- Witness for C6 at a one-session registry with one pending request. -/
theorem closeSession_idempotent_witness :
    mapGet [("s1", { baseSession with pendingResponses := [("r1", samplePending)] })] "s1" =
      some { baseSession with pendingResponses := [("r1", samplePending)] } ∧
    (closeSession [("s1", { baseSession with pendingResponses := [("r1", samplePending)] })] "s1").2.rejectedPending =
      [("r1", "Sesión cerrada manualmente")] ∧
    mapGet (closeSession [("s1", { baseSession with pendingResponses := [("r1", samplePending)] })] "s1").1 "s1" = none := by
  have h := (closeSession_idempotent
    [("s1", { baseSession with pendingResponses := [("r1", samplePending)] })] "s1").2
    { baseSession with pendingResponses := [("r1", samplePending)] } (by rfl)
  exact ⟨by rfl, h.2.1, h.2.2.2.1⟩

/-- C8: `updateInstructions` overwrites the instructions field and
leaves the conversation history sequence exactly as it was. -/
theorem updateInstructions_preserves_history
    (s : SessionState) (instructions : String) (now : Nat) :
    ((updateInstructionsOp s instructions now).1).instructions = instructions ∧
    ((updateInstructionsOp s instructions now).1).conversationHistory =
      s.conversationHistory :=
  ⟨rfl, rfl⟩

theorem runResolve_lastActivityAt (s : SessionState) (p : PendingEntry) (ts : String) :
    (runResolve s p ts).lastActivityAt = s.lastActivityAt := by
  unfold runResolve
  split <;> rfl

/-- C9: an inbound protocol event delivered to a session with an empty
pending table leaves the session state exactly unchanged and produces no
effect (every handler first checks `_getLatestPending`, and the handler
is a total function — it cannot throw). -/
theorem dispatcher_inert_without_pending (s : SessionState) (e : OpenAIEvent)
    (nowMs : Nat) (ts : String) (h : s.pendingResponses = []) :
    handleOpenAIEvent s e nowMs ts = (s, .noEffect) := by
  cases e <;> simp [handleOpenAIEvent, getLatestPending, h]

/-- Witness for C9: a `response.done` delivered to a session with no
pending requests. -/
theorem dispatcher_inert_without_pending_witness :
    baseSession.pendingResponses = [] ∧
    handleOpenAIEvent baseSession OpenAIEvent.responseDone 5 "t" =
      (baseSession, DispatchEffect.noEffect) :=
  ⟨rfl, dispatcher_inert_without_pending baseSession OpenAIEvent.responseDone 5 "t" rfl⟩

/-- C7 (amended): `lastActivityAt` is set to the call time by the
mutating caller operations `sendText`, `sendAudio` and
`updateInstructions`; it is never advanced by inbound transport events
(`_handleOpenAIEvent` always preserves it); and the read-only caller
operation `getHistory` performs no state change at all. -/
theorem lastActivity_advanced_only_by_send_ops :
    (∀ (s : SessionState) (text : String) (ra : Option Bool) (rid : String) (now : Nat),
      ((sendTextRegister s text ra rid now).1).lastActivityAt = now) ∧
    (∀ (s : SessionState) (audio : String) (ra : Option Bool) (rid : String) (now : Nat),
      ((sendAudioRegister s audio ra rid now).1).lastActivityAt = now) ∧
    (∀ (s : SessionState) (instructions : String) (now : Nat),
      ((updateInstructionsOp s instructions now).1).lastActivityAt = now) ∧
    (∀ (s : SessionState) (e : OpenAIEvent) (nowMs : Nat) (ts : String),
      ((handleOpenAIEvent s e nowMs ts).1).lastActivityAt = s.lastActivityAt) ∧
    (∀ s : SessionState, (getHistory s).1 = s) := by
  refine ⟨fun s text ra rid now => rfl, fun s a ra rid now => rfl,
    fun s i now => rfl, ?_, fun s => rfl⟩
  intro s e nowMs ts
  cases e <;>
    (try rfl) <;>
    rcases hl : s.pendingResponses.getLast? with _ | ⟨rid, p⟩ <;>
    simp [handleOpenAIEvent, getLatestPending, hl, updateLatestBuffer,
      runResolve_lastActivityAt] <;>
    (try split) <;>
    simp [updateLatestBuffer]

/-- C7 (counterexample): `getHistory` is a caller-initiated operation,
yet a `getHistory` call at time 1 on a session whose `lastActivityAt`
is 0 leaves the session — in particular `lastActivityAt` — unchanged,
so `lastActivityAt` is not updated on every caller-initiated operation. -/
theorem getHistory_does_not_advance_lastActivity :
    (getHistory baseSession).1 = baseSession ∧ baseSession.lastActivityAt ≠ 1 :=
  ⟨rfl, by decide⟩

/-! ## C3: audio-transcript deltas and the response-text buffer -/

/-- Processing a sequence of inbound events in arrival order. -/
def processEvents (s : SessionState) (es : List OpenAIEvent) (nowMs : Nat)
    (ts : String) : SessionState :=
  es.foldl (fun st e => (handleOpenAIEvent st e nowMs ts).1) s

/-- The response-text buffer of the latest pending request (`""` when
there is none). -/
def latestTextDelta (s : SessionState) : String :=
  ((getLatestPending s).map (fun p => p.buffer.textDelta)).getD ""

/-- The first non-empty string of a list (`""` if all are empty). -/
def firstNonempty : List String → String
  | [] => ""
  | d :: rest => if d = "" then firstNonempty rest else d

theorem handle_transcript_single (s : SessionState) (rid : String) (p : PendingEntry)
    (d : String) (nowMs : Nat) (ts : String)
    (h : s.pendingResponses = [(rid, p)]) :
    handleOpenAIEvent s (.responseAudioTranscriptDelta (some d)) nowMs ts =
      (if p.buffer.textDelta = "" then
        { s with pendingResponses :=
            [(rid, { p with buffer :=
              { p.buffer with textDelta := p.buffer.textDelta ++ d } })] }
       else s, .noEffect) := by
  by_cases hc : p.buffer.textDelta = "" <;>
    simp [handleOpenAIEvent, getLatestPending, h, hc, updateLatestBuffer, modifyLast]

theorem transcripts_inert (ds : List String) (s : SessionState) (rid : String)
    (p : PendingEntry) (nowMs : Nat) (ts : String)
    (h : s.pendingResponses = [(rid, p)]) (hne : p.buffer.textDelta ≠ "") :
    processEvents s (ds.map (fun d => OpenAIEvent.responseAudioTranscriptDelta (some d)))
      nowMs ts = s := by
  induction ds with
  | nil => rfl
  | cons d rest ih =>
      have hstep := handle_transcript_single s rid p d nowMs ts h
      simp only [hne, if_false] at hstep
      simp only [List.map_cons, processEvents, List.foldl_cons, hstep]
      exact ih

theorem latest_after_transcripts (ds : List String) (s : SessionState) (rid : String)
    (p : PendingEntry) (nowMs : Nat) (ts : String)
    (h : s.pendingResponses = [(rid, p)]) (hne : p.buffer.textDelta ≠ "") :
    latestTextDelta (processEvents s
      (ds.map (fun d => OpenAIEvent.responseAudioTranscriptDelta (some d))) nowMs ts) =
      p.buffer.textDelta := by
  rw [transcripts_inert ds s rid p nowMs ts h hne]
  simp [latestTextDelta, getLatestPending, h]

/-- C3 (amended): an audio-transcript-delta is appended to the
response-text buffer only when that buffer is still empty at the moment
the event arrives (`!pending.buffer.textDelta`), so when no direct
text-delta events arrive, the final response text equals the first
non-empty audio-transcript payload (empty if all payloads are empty) —
not the concatenation of all payloads. -/
theorem audio_transcript_first_nonempty_only :
    (∀ (s : SessionState) (rid : String) (p : PendingEntry) (d : String)
      (nowMs : Nat) (ts : String),
      s.pendingResponses = [(rid, p)] → p.buffer.textDelta ≠ "" →
      handleOpenAIEvent s (.responseAudioTranscriptDelta (some d)) nowMs ts =
        (s, .noEffect)) ∧
    (∀ (s : SessionState) (rid : String) (p : PendingEntry) (ds : List String)
      (nowMs : Nat) (ts : String),
      s.pendingResponses = [(rid, p)] → p.buffer.textDelta = "" →
      latestTextDelta (processEvents s
        (ds.map (fun d => OpenAIEvent.responseAudioTranscriptDelta (some d)))
        nowMs ts) = firstNonempty ds) := by
  constructor
  · intro s rid p d nowMs ts h hne
    have hstep := handle_transcript_single s rid p d nowMs ts h
    simpa only [hne, if_false] using hstep
  · intro s rid p ds nowMs ts h h0
    induction ds generalizing s p with
    | nil =>
        simp [processEvents, latestTextDelta, getLatestPending, h, h0, firstNonempty]
    | cons d rest ih =>
        have hstep := handle_transcript_single s rid p d nowMs ts h
        simp only [h0, if_true] at hstep
        rw [string_empty_append] at hstep
        simp only [List.map_cons, processEvents, List.foldl_cons, hstep]
        by_cases hd : d = ""
        · subst hd
          have := ih { s with pendingResponses :=
              [(rid, { p with buffer := { p.buffer with textDelta := "" } })] }
            { p with buffer := { p.buffer with textDelta := "" } } rfl rfl
          simpa [processEvents, firstNonempty] using this
        · have hne2 : ({ p with buffer := { p.buffer with textDelta := d } } :
              PendingEntry).buffer.textDelta ≠ "" := by simpa using hd
          have hin := latest_after_transcripts rest
            { s with pendingResponses :=
              [(rid, { p with buffer := { p.buffer with textDelta := d } })] }
            rid { p with buffer := { p.buffer with textDelta := d } } nowMs ts rfl hne2
          exact hin.trans (by simp [firstNonempty, hd])

/-- Witness for C3 at a session with one fresh pending request and the
transcript payloads `["he", "llo"]`. -/
theorem audio_transcript_first_nonempty_only_witness :
    ({ baseSession with pendingResponses := [("r1", samplePending)] } :
        SessionState).pendingResponses = [("r1", samplePending)] ∧
    samplePending.buffer.textDelta = "" ∧
    latestTextDelta (processEvents
      { baseSession with pendingResponses := [("r1", samplePending)] }
      (["he", "llo"].map (fun d => OpenAIEvent.responseAudioTranscriptDelta (some d)))
      0 "t") = firstNonempty ["he", "llo"] :=
  ⟨rfl, rfl, audio_transcript_first_nonempty_only.2
    { baseSession with pendingResponses := [("r1", samplePending)] }
    "r1" samplePending ["he", "llo"] 0 "t" rfl rfl⟩

/-- C3 (counterexample): with no direct text deltas and the two
audio-transcript payloads `"A"` then `"B"`, the response-text buffer
ends as `"A"`, not the concatenation `"AB"` the claim requires. -/
theorem audio_transcript_concat_fails :
    latestTextDelta (processEvents
      { baseSession with pendingResponses := [("r1", samplePending)] }
      [OpenAIEvent.responseAudioTranscriptDelta (some "A"),
       OpenAIEvent.responseAudioTranscriptDelta (some "B")] 0 "t") = "A" ∧
    ("A" : String) ≠ "AB" := by
  constructor
  · rfl
  · decide

/-! ## C4: duplicate session ids -/

/-- A live session already registered under id `"s1"`. -/
def existingSession : SessionState := { baseSession with instructions := "antigua" }

/-- The session state `createSession` builds for a supplied id `"s1"`
with the inputs of the C4 counterexample. -/
def replacementSession : SessionState :=
  { id := "s1"
    status := .connecting
    instructions := "nueva personalidad"
    voice := "alloy"
    model := "gpt-4o-mini-realtime-preview"
    metadata := []
    createdAt := "t1"
    lastActivityAt := 5
    conversationHistory := []
    pendingResponses := [] }

/-- C4 (counterexample): `createSession` with a supplied id that is
already live is not rejected — only the capacity limit is checked — and
the registry entry for that id is replaced by the new session state. -/
theorem createSession_duplicate_id_not_rejected :
    createSessionStart (mkConfig {}) [("s1", existingSession)] (some "s1") "gen-id"
        "nueva personalidad" "alloy" "gpt-4o-mini-realtime-preview" [] "t1" 5 =
      Except.ok ([("s1", replacementSession)], replacementSession) ∧
    mapGet [("s1", replacementSession)] "s1" ≠ some existingSession := by
  constructor
  · rfl
  · decide

/-- C4 (amended): whenever the capacity check passes, `createSession`
with a supplied id accepts the call and writes the new session state
under that id — overwriting any live session already registered there
(there is no duplicate-id guard). -/
theorem createSession_duplicate_id_overwrites (cfg : Config) (reg : Registry)
    (sessionId generatedId instructions voice mdl : String)
    (metadata : List (String × String)) (createdAt : String) (now : Nat)
    (h : cfg.maxSessions = 0 ∨ reg.length < cfg.maxSessions) :
    ∃ st : SessionState,
      createSessionStart cfg reg (some sessionId) generatedId instructions voice mdl
          metadata createdAt now = .ok (mapSet reg sessionId st, st) ∧
      mapGet (mapSet reg sessionId st) sessionId = some st ∧
      st.id = sessionId ∧ st.status = .connecting := by
  have hcond : (cfg.maxSessions > 0 && decide (cfg.maxSessions ≤ reg.length)) = false := by
    rcases h with h | h
    · simp [h]
    · simp [Nat.not_le.mpr h]
  refine ⟨{ id := sessionId, status := .connecting, instructions := instructions,
            voice := voice, model := mdl, metadata := metadata,
            createdAt := createdAt, lastActivityAt := now,
            conversationHistory := [], pendingResponses := [] },
    ?_, mapGet_mapSet_self _ _ _, rfl, rfl⟩
  unfold createSessionStart
  rw [hcond]
  rfl

/-- Witness for C4 (amended) at the one-session registry of the
counterexample (capacity unlimited). -/
theorem createSession_duplicate_id_overwrites_witness :
    ((mkConfig {}).maxSessions = 0 ∨
      ([("s1", existingSession)] : Registry).length < (mkConfig {}).maxSessions) ∧
    ∃ st : SessionState,
      createSessionStart (mkConfig {}) [("s1", existingSession)] (some "s1") "gen-id"
          "nueva personalidad" "alloy" "gpt-4o-mini-realtime-preview" [] "t1" 5 =
        .ok (mapSet [("s1", existingSession)] "s1" st, st) ∧
      mapGet (mapSet [("s1", existingSession)] "s1" st) "s1" = some st ∧
      st.id = "s1" ∧ st.status = .connecting :=
  ⟨Or.inl rfl,
   createSession_duplicate_id_overwrites (mkConfig {}) [("s1", existingSession)]
     "s1" "gen-id" "nueva personalidad" "alloy" "gpt-4o-mini-realtime-preview"
     [] "t1" 5 (Or.inl rfl)⟩

/-! ## C10: returnAudio defaults -/

/-- A resolved `sendAudio` pending entry with two audio chunks. -/
def audioPendingSample : PendingEntry :=
  { kind := .audio
    buffer := { initialAudioBuffer with audioDelta := ["a", "b"] }
    returnAudio := true
    isAudioInput := true
    startTime := 0 }

/-- C10: with `returnAudio` omitted, `sendText` requests text-only
modalities and registers an entry with `returnAudio = false`, and any
entry with `returnAudio = false` yields a result without
`audio_base64`; `sendAudio` with `returnAudio` omitted requests
text-and-audio modalities and registers an entry with
`returnAudio = true`, and any entry with `returnAudio = true` yields a
result with `audio_base64` exactly when audio chunks accumulated. -/
theorem returnAudio_defaults_asymmetric :
    (∀ (s : SessionState) (text rid : String) (now : Nat),
      (sendTextRegister s text none rid now).2 =
        [OutboundMsg.conversationItemCreate text,
         OutboundMsg.responseCreate ["text"]] ∧
      mapGet (sendTextRegister s text none rid now).1.pendingResponses rid =
        some { kind := .text text, buffer := initialTextBuffer text,
               returnAudio := false, isAudioInput := false, startTime := now }) ∧
    (∀ (q : PendingEntry) (nowMs : Nat) (sid rid : String), q.returnAudio = false →
      (buildResult q nowMs sid rid).audio_base64 = none) ∧
    (∀ (s : SessionState) (audio rid : String) (now : Nat),
      ((sendAudioRegister s audio none rid now).2).getLast? =
        some (OutboundMsg.responseCreate ["text", "audio"]) ∧
      mapGet (sendAudioRegister s audio none rid now).1.pendingResponses rid =
        some { kind := .audio, buffer := initialAudioBuffer,
               returnAudio := true, isAudioInput := true, startTime := now }) ∧
    (∀ (q : PendingEntry) (nowMs : Nat) (sid rid : String), q.returnAudio = true →
      (buildResult q nowMs sid rid).audio_base64 =
        (if q.buffer.audioDelta.length = 0 then none
         else some (String.join q.buffer.audioDelta))) := by
  refine ⟨?_, ?_, ?_, ?_⟩
  · intro s text rid now
    exact ⟨rfl, mapGet_mapSet_self _ _ _⟩
  · intro q nowMs sid rid h
    simp [buildResult, h]
  · intro s audio rid now
    constructor
    · show (([OutboundMsg.inputAudioBufferClear] ++
        (chunkChars audio.data).map OutboundMsg.inputAudioBufferAppend) ++
        [OutboundMsg.inputAudioBufferCommit,
         OutboundMsg.responseCreate ["text", "audio"]]).getLast? = _
      rw [List.getLast?_append_cons]
      rfl
    · exact mapGet_mapSet_self _ _ _
  · intro q nowMs sid rid h
    by_cases hz : q.buffer.audioDelta.length = 0 <;>
      simp [buildResult, h, hz]

/-- Witness for C10's hypothesis-bearing parts at concrete entries:
`samplePending` has `returnAudio = false`, `audioPendingSample` has
`returnAudio = true` and two accumulated chunks. -/
theorem returnAudio_defaults_asymmetric_witness :
    samplePending.returnAudio = false ∧
    (buildResult samplePending 7 "s1" "r1").audio_base64 = none ∧
    audioPendingSample.returnAudio = true ∧
    (buildResult audioPendingSample 7 "s1" "r1").audio_base64 =
      (if audioPendingSample.buffer.audioDelta.length = 0 then none
       else some (String.join audioPendingSample.buffer.audioDelta)) :=
  ⟨rfl, returnAudio_defaults_asymmetric.2.1 samplePending 7 "s1" "r1" rfl,
   rfl, returnAudio_defaults_asymmetric.2.2.2 audioPendingSample 7 "s1" "r1" rfl⟩
